import Mathlib

/-!
# Shallow embedding of `src/system/Diagnostics.h` (economy2.0)

The program is a small file logger:
* `TimeManager` formats the current wall-clock instant with `strftime`
  patterns `"%Y-%m-%d"` and `"%H:%M:%S"`;
* `Logger` resolves a `log` directory (under `cwd` or under `parent(cwd)`),
  creates it with `fs::create_directories` (throwing on failure), and opens
  three append-mode streams named `<date>.log`, `<date> Warnings.log`,
  `<date> Errors.log`; writes prepend the current time, and writes to a
  stream that is not open print a diagnostic on `cerr`.

The embedding makes the interaction with the operating system explicit:
an `Env` fixes the outcomes of the OS calls (the clock readings, whether
each `open` succeeds, whether directory creation succeeds) and a `World`
carries the mutable state (directories, file contents, the lines printed
on `cerr`, and how many clock readings have been consumed).  All
definitions are executable and mirror the C++ source line by line.
-/

/-- A broken-down local time, as produced by `localtime`:
the fields correspond to `tm_year + 1900`, `tm_mon + 1`, `tm_mday`,
`tm_hour`, `tm_min`, `tm_sec`. -/
structure DateTime where
  year : Nat
  month : Nat
  day : Nat
  hour : Nat
  minute : Nat
  second : Nat
deriving DecidableEq, Repr

/-- The ranges `localtime` guarantees for a broken-down time
(`tm_sec` may be `60` on a leap second). -/
def DateTime.valid (dt : DateTime) : Prop :=
  1 ≤ dt.month ∧ dt.month ≤ 12 ∧ 1 ≤ dt.day ∧ dt.day ≤ 31 ∧
    dt.hour ≤ 23 ∧ dt.minute ≤ 59 ∧ dt.second ≤ 60

instance (dt : DateTime) : Decidable dt.valid := by
  unfold DateTime.valid; infer_instance

/-- Decimal rendering of a natural number, fuel-indexed so that it is
structurally recursive (the fuel `n + 1` always suffices).  This models
how `strftime` prints a numeric field at its natural width. -/
def natToDecCore : Nat → Nat → List Char
  | 0, _ => []
  | fuel + 1, n =>
    if n < 10 then [Nat.digitChar n]
    else natToDecCore fuel (n / 10) ++ [Nat.digitChar (n % 10)]

/-- Decimal rendering of a natural number (no padding), as `strftime`'s
`%Y` prints the year: at its natural width. -/
def natToDec (n : Nat) : String :=
  String.mk (natToDecCore (n + 1) n)

/-- Two-digit zero padding, as `strftime`'s `%m`, `%d`, `%H`, `%M`, `%S`
print fields that are below 100. -/
def pad2 (n : Nat) : String :=
  if n < 10 then "0" ++ natToDec n else natToDec n

/-- `TimeManager::currentDateFormatted`'s formatting step:
`strftime` with pattern `"%Y-%m-%d"`. -/
def formatDate (dt : DateTime) : String :=
  natToDec dt.year ++ "-" ++ pad2 dt.month ++ "-" ++ pad2 dt.day

/-- `TimeManager::currentTimeFormatted`'s formatting step:
`strftime` with pattern `"%H:%M:%S"`. -/
def formatTime (dt : DateTime) : String :=
  pad2 dt.hour ++ ":" ++ pad2 dt.minute ++ ":" ++ pad2 dt.second

/-- Does a string match `YYYY-MM-DD` (exactly ten characters:
four digits, dash, two digits, dash, two digits)? -/
def matchesDatePattern (s : String) : Bool :=
  match s.data with
  | [y1, y2, y3, y4, s1, m1, m2, s2, d1, d2] =>
    y1.isDigit && y2.isDigit && y3.isDigit && y4.isDigit &&
      s1 = '-' && m1.isDigit && m2.isDigit && s2 = '-' &&
      d1.isDigit && d2.isDigit
  | _ => false

/-- Does a string match `HH:MM:SS` (exactly eight characters:
two digits, colon, two digits, colon, two digits)? -/
def matchesTimePattern (s : String) : Bool :=
  match s.data with
  | [h1, h2, s1, m1, m2, s2, c1, c2] =>
    h1.isDigit && h2.isDigit && s1 = ':' && m1.isDigit && m2.isDigit &&
      s2 = ':' && c1.isDigit && c2.isDigit
  | _ => false

/-! ## Paths

A directory path is a list of components (as `fs::path` is a sequence of
components); file paths are rendered to plain strings once the directory
is fixed, since all the actual file operations receive a full path. -/

/-- `fs::path::parent_path` on a component list: drop the last component. -/
def parentPath (p : List String) : List String :=
  p.dropLast

/-- `operator/` of `fs::path`, on a rendered directory and a file name. -/
def pathJoin (dir name : String) : String :=
  dir ++ "/" ++ name

/-- Render a component list to a string path. -/
def renderPath (p : List String) : String :=
  String.intercalate "/" p

/-- The directory the `Logger` constructor resolves:
`cwd / "log"` when `isSubdirectory` is true, else
`cwd.parent_path() / "log"`. -/
def dirPathOf (cwd : List String) (isSubdirectory : Bool) : List String :=
  if isSubdirectory then cwd ++ ["log"] else parentPath cwd ++ ["log"]

/-! ## The OS environment and the mutable world -/

/-- The outcomes of the OS calls during one run: `clock i` is the
broken-down local time the `i`-th call of `time`/`localtime` observes,
`openOk p` says whether `ofstream::open` on path `p` succeeds, and
`mkdirOk` says whether `fs::create_directories` succeeds when it actually
has to create the directory. -/
structure Env where
  clock : Nat → DateTime
  openOk : String → Bool
  mkdirOk : Bool

/-- The mutable state: existing directories, file contents (an
association list path ↦ content), the lines printed on `cerr`, and the
number of clock readings consumed so far. -/
structure World where
  dirs : List String
  files : List (String × String)
  stderrLines : List String
  clock : Nat
deriving DecidableEq, Repr

/-- `cerr << msg << endl`: one diagnostic line. -/
def cerrLine (w : World) (msg : String) : World :=
  { w with stderrLines := w.stderrLines ++ [msg] }

/-- Content of the file at `p`, `none` when the file does not exist. -/
def fsLookup : List (String × String) → String → Option String
  | [], _ => none
  | (q, c) :: rest, p => if q = p then some c else fsLookup rest p

/-- Create the file at `p` empty when absent; never truncate an existing
file (the `ios::app` open mode). -/
def fsTouch (files : List (String × String)) (p : String) :
    List (String × String) :=
  match fsLookup files p with
  | some _ => files
  | none => files ++ [(p, "")]

/-- Append `s` to the file at `p` (creating it when absent, which the
logger never relies on: it only writes to files it opened). -/
def fsAppend : List (String × String) → String → String →
    List (String × String)
  | [], p, s => [(p, s)]
  | (q, c) :: rest, p, s =>
    if q = p then (q, c ++ s) :: rest else (q, c) :: fsAppend rest p s

/-! ## Streams and the Logger -/

/-- The lifecycle state of one `ofstream` channel.  `opened` remembers
the path the stream is bound to. -/
inductive StreamState where
  | unopened : StreamState
  | opened : String → StreamState
  | failed : StreamState
  | closed : StreamState
deriving DecidableEq, Repr

/-- `ofstream::is_open`. -/
def StreamState.isOpen : StreamState → Bool
  | .opened _ => true
  | _ => false

/-- `ofstream::open(path, ios::app)`: on success the stream is bound to
the path and the file exists (created empty when absent, untouched when
present); on failure the stream is unusable and nothing changes. -/
def openApp (env : Env) (w : World) (path : String) : StreamState × World :=
  if env.openOk path then
    (.opened path, { w with files := fsTouch w.files path })
  else
    (.failed, w)

/-- `timeManager.currentDateFormatted()`: read the clock (consuming one
reading) and format it as `%Y-%m-%d`. -/
def currentDateFormatted (env : Env) (w : World) : String × World :=
  (formatDate (env.clock w.clock), { w with clock := w.clock + 1 })

/-- `timeManager.currentTimeFormatted()`: read the clock (consuming one
reading) and format it as `%H:%M:%S`. -/
def currentTimeFormatted (env : Env) (w : World) : String × World :=
  (formatTime (env.clock w.clock), { w with clock := w.clock + 1 })

/-- `fs::create_directories(dir)` (throwing overload): succeeds silently
when the directory exists, creates it when allowed, throws otherwise.
An exception carries the world as it was at the throw point. -/
def createDirectories (env : Env) (w : World) (dir : String) :
    Except World World :=
  if w.dirs.contains dir then .ok w
  else if env.mkdirOk then .ok { w with dirs := dir :: w.dirs }
  else .error w

/-- The three channel streams of `Logger`. -/
structure Logger where
  logFile : StreamState
  warningLogFile : StreamState
  errorLogFile : StreamState
deriving DecidableEq, Repr

/-- `operator<<` on `cerr` for an `fs::path` prints it quoted. -/
def quotePath (p : String) : String :=
  "\"" ++ p ++ "\""

/-- The diagnostic `createLogs` prints when an open fails. -/
def openFailMsg (p : String) : String :=
  "Error: failed to open log file at " ++ quotePath p

/-- `Logger::createLogs`, line by line.  The source reuses one local
variable `logFilePath` for all three paths; the numbered `let`s below
record its successive values.  Note that the source checks
`logFile.is_open()` only *after* reassigning `logFilePath` to the
Warnings path, so the diagnostic for the main log prints the Warnings
path (`logFilePath1` below), exactly as the code does. -/
def createLogs (env : Env) (w : World) (logDirPath : String) :
    Logger × World :=
  let r0 := currentDateFormatted env w
  let logFilePath0 := pathJoin logDirPath (r0.1 ++ ".log")
  let o1 := openApp env r0.2 logFilePath0
  let logFile := o1.1
  let r1 := currentDateFormatted env o1.2
  let logFilePath1 := pathJoin logDirPath (r1.1 ++ " Warnings.log")
  let o2 := openApp env r1.2 logFilePath1
  let warningLogFile := o2.1
  let w2 := if warningLogFile.isOpen then o2.2
    else cerrLine o2.2 (openFailMsg logFilePath1)
  let w3 := if logFile.isOpen then w2
    else cerrLine w2 (openFailMsg logFilePath1)
  let r2 := currentDateFormatted env w3
  let logFilePath2 := pathJoin logDirPath (r2.1 ++ " Errors.log")
  let o3 := openApp env r2.2 logFilePath2
  let errorLogFile := o3.1
  let w4 := if errorLogFile.isOpen then o3.2
    else cerrLine o3.2 (openFailMsg logFilePath2)
  ({ logFile := logFile, warningLogFile := warningLogFile,
     errorLogFile := errorLogFile }, w4)

/-- `Logger::Logger(bool isSubdirectory)`: resolve the directory, create
it (a failure of `fs::create_directories` throws, so construction stops
there), then open the three logs. -/
def LoggerCtor (env : Env) (w : World) (cwd : List String)
    (isSubdirectory : Bool) : Except World (Logger × World) :=
  let logDirPath := renderPath (dirPathOf cwd isSubdirectory)
  match createDirectories env w logDirPath with
  | .error w' => .error w'
  | .ok w1 => .ok (createLogs env w1 logDirPath)

/-- `Logger log;` — the constructor with its default argument
`isSubdirectory = false`. -/
def LoggerCtorDefault (env : Env) (w : World) (cwd : List String) :
    Except World (Logger × World) :=
  LoggerCtor env w cwd false

/-- `Logger::write`: when the main stream is open, append
`currentTime ++ " " ++ message` to its file; otherwise print one
diagnostic line on `cerr` and change nothing else. -/
def Logger.write (env : Env) (lg : Logger) (w : World) (message : String) :
    World :=
  match lg.logFile with
  | .opened path =>
    let r := currentTimeFormatted env w
    { r.2 with files := fsAppend r.2.files path (r.1 ++ " " ++ message) }
  | _ => cerrLine w "Error: log file is not open."

/-- `Logger::writeWarning`. -/
def Logger.writeWarning (env : Env) (lg : Logger) (w : World)
    (message : String) : World :=
  match lg.warningLogFile with
  | .opened path =>
    let r := currentTimeFormatted env w
    { r.2 with files := fsAppend r.2.files path (r.1 ++ " " ++ message) }
  | _ => cerrLine w "Error: warning log file is not open."

/-- `Logger::writeError`. -/
def Logger.writeError (env : Env) (lg : Logger) (w : World)
    (message : String) : World :=
  match lg.errorLogFile with
  | .opened path =>
    let r := currentTimeFormatted env w
    { r.2 with files := fsAppend r.2.files path (r.1 ++ " " ++ message) }
  | _ => cerrLine w "Error: error log file is not open."

/-- `Logger::writeLine`: `write(message + "\n")`. -/
def Logger.writeLine (env : Env) (lg : Logger) (w : World)
    (message : String) : World :=
  lg.write env w (message ++ "\n")

/-- `Logger::writeWarningLine`. -/
def Logger.writeWarningLine (env : Env) (lg : Logger) (w : World)
    (message : String) : World :=
  lg.writeWarning env w (message ++ "\n")

/-- `Logger::writeErrorLine`. -/
def Logger.writeErrorLine (env : Env) (lg : Logger) (w : World)
    (message : String) : World :=
  lg.writeError env w (message ++ "\n")

/-- One `if (stream.is_open()) stream.close();` of the destructor. -/
def closeStream : StreamState → StreamState
  | .opened _ => .closed
  | s => s

/-- `Logger::~Logger`: close each stream that is open.  (The close of an
`ofstream` flushes; file contents are already final in this model.) -/
def Logger.destroy (lg : Logger) : Logger :=
  { logFile := closeStream lg.logFile,
    warningLogFile := closeStream lg.warningLogFile,
    errorLogFile := closeStream lg.errorLogFile }

/-! ## Derived path expressions and sample environments

`createLogs` computes three file paths; the following abbreviations name
the path it computes from the `k`-th clock reading.  The `env...` values
are concrete environments used to exercise the model on closed inputs. -/

/-- The main log path `dir / (<date k> ++ ".log")`. -/
def infoPath (env : Env) (k : Nat) (dir : String) : String :=
  pathJoin dir (formatDate (env.clock k) ++ ".log")

/-- The warning log path `dir / (<date k> ++ " Warnings.log")`. -/
def warnPath (env : Env) (k : Nat) (dir : String) : String :=
  pathJoin dir (formatDate (env.clock k) ++ " Warnings.log")

/-- The error log path `dir / (<date k> ++ " Errors.log")`. -/
def errPath (env : Env) (k : Nat) (dir : String) : String :=
  pathJoin dir (formatDate (env.clock k) ++ " Errors.log")

/-- The per-channel outcome of construction: open (bound to a path) or
failed — never still unopened, never already closed. -/
def chanInit (s : StreamState) : Prop :=
  (∃ p, s = .opened p) ∨ s = .failed

/-- Constant clock, every open succeeds, directory creation allowed. -/
def envA : Env where
  clock := fun _ => ⟨2024, 5, 6, 12, 34, 56⟩
  openOk := fun _ => true
  mkdirOk := true

/-- Clock that crosses midnight between the first and the later readings. -/
def envB : Env where
  clock := fun i =>
    if i = 0 then ⟨2024, 12, 31, 23, 59, 59⟩ else ⟨2025, 1, 1, 0, 0, 0⟩
  openOk := fun _ => true
  mkdirOk := true

/-- Opening the main log file fails; every other open succeeds. -/
def envC : Env where
  clock := fun _ => ⟨2024, 5, 6, 12, 34, 56⟩
  openOk := fun p => !(p = "r/log/2024-05-06.log")
  mkdirOk := true

/-- Directory creation is denied. -/
def envD : Env where
  clock := fun _ => ⟨2024, 5, 6, 12, 34, 56⟩
  openOk := fun _ => true
  mkdirOk := false

/-- The empty starting world. -/
def emptyWorld : World :=
  { dirs := [], files := [], stderrLines := [], clock := 0 }

/-- A world where the `log` directory and three files already exist. -/
def wPre : World :=
  { dirs := ["r/log"], files := [("L", "old"), ("W", ""), ("E", "")],
    stderrLines := [], clock := 0 }

/-- A logger whose three channels are open on the files of `wPre`. -/
def lgOpenLWE : Logger :=
  { logFile := .opened "L", warningLogFile := .opened "W",
    errorLogFile := .opened "E" }

/-- A logger none of whose channels is open. -/
def lgDown : Logger :=
  { logFile := .failed, warningLogFile := .closed,
    errorLogFile := .unopened }

/-! ## Lemmas about the file model -/

theorem fsLookup_fsAppend_self (files : List (String × String))
    (p s c : String) (h : fsLookup files p = some c) :
    fsLookup (fsAppend files p s) p = some (c ++ s) := by
  induction files with
  | nil => simp [fsLookup] at h
  | cons hd tl ih =>
    obtain ⟨q, c'⟩ := hd
    by_cases hq : q = p
    · subst hq
      simp [fsLookup] at h
      subst h
      simp [fsAppend, fsLookup]
    · simp [fsLookup, hq] at h
      simp [fsAppend, hq, fsLookup, ih h]

theorem fsLookup_fsAppend_ne (files : List (String × String))
    (p s : String) (q : String) (h : q ≠ p) :
    fsLookup (fsAppend files p s) q = fsLookup files q := by
  induction files with
  | nil => simp [fsAppend, fsLookup, Ne.symm h]
  | cons hd tl ih =>
    obtain ⟨r, c'⟩ := hd
    by_cases hr : r = p
    · subst hr
      simp [fsAppend, fsLookup, Ne.symm h]
    · by_cases hq : r = q
      · subst hq
        simp [fsAppend, hr, fsLookup]
      · simp [fsAppend, hr, fsLookup, hq, ih]

theorem fsLookup_append_of_some (files l : List (String × String))
    (q c : String) (h : fsLookup files q = some c) :
    fsLookup (files ++ l) q = some c := by
  induction files with
  | nil => simp [fsLookup] at h
  | cons hd tl ih =>
    obtain ⟨r, c'⟩ := hd
    by_cases hr : r = q
    · subst hr
      simp [fsLookup] at h ⊢
      exact h
    · simp [fsLookup, hr] at h ⊢
      exact ih h

theorem fsLookup_append_of_none (files l : List (String × String))
    (q : String) (h : fsLookup files q = none) :
    fsLookup (files ++ l) q = fsLookup l q := by
  induction files with
  | nil => simp
  | cons hd tl ih =>
    obtain ⟨r, c'⟩ := hd
    by_cases hr : r = q
    · simp [fsLookup, hr] at h
    · simp [fsLookup, hr] at h ⊢
      exact ih h

theorem fsLookup_fsTouch_of_some (files : List (String × String))
    (p q c : String) (h : fsLookup files q = some c) :
    fsLookup (fsTouch files p) q = some c := by
  unfold fsTouch
  cases hl : fsLookup files p with
  | some c' => exact h
  | none => exact fsLookup_append_of_some files _ q c h

theorem fsLookup_fsTouch_ne (files : List (String × String))
    (p q : String) (h : q ≠ p) :
    fsLookup (fsTouch files p) q = fsLookup files q := by
  unfold fsTouch
  cases hl : fsLookup files p with
  | some c' => rfl
  | none =>
    cases hq : fsLookup files q with
    | some c => exact fsLookup_append_of_some files _ q c hq
    | none =>
      rw [fsLookup_append_of_none files _ q hq]
      simp [fsLookup, Ne.symm h]

theorem fsLookup_fsTouch_none (files : List (String × String))
    (p : String) (h : fsLookup files p = none) :
    fsLookup (fsTouch files p) p = some "" := by
  unfold fsTouch
  rw [h, fsLookup_append_of_none files _ p h]
  simp [fsLookup]

/-! ## Lemmas about paths -/

theorem pathJoin_suffix_ne (dir D a b : String) (hab : a ≠ b) :
    pathJoin dir (D ++ a) ≠ pathJoin dir (D ++ b) := by
  intro h
  apply hab
  apply String.ext
  have hd := congrArg String.data h
  simp only [pathJoin, String.data_append, List.append_assoc] at hd
  exact List.append_cancel_left (List.append_cancel_left
    (List.append_cancel_left hd))

/-! ## Lemmas about decimal rendering -/

theorem digitChar_isDigit (n : Nat) (h : n < 10) :
    (Nat.digitChar n).isDigit = true := by
  interval_cases n <;> decide

theorem natToDecCore_congr : ∀ (f g n : Nat), n < f → n < g →
    natToDecCore f n = natToDecCore g n := by
  intro f
  induction f with
  | zero => intro g n hf _; exact absurd hf (by omega)
  | succ f ih =>
    intro g n hf hg
    cases g with
    | zero => exact absurd hg (by omega)
    | succ g =>
      unfold natToDecCore
      by_cases h : n < 10
      · simp [h]
      · have hd : n / 10 < n := Nat.div_lt_self (by omega) (by omega)
        simp only [if_neg h]
        rw [ih g (n / 10) (by omega) (by omega)]

theorem natToDecCore_split (f n : Nat) (h10 : 10 ≤ n) (hf : n < f) :
    natToDecCore f n = natToDecCore f (n / 10) ++ [Nat.digitChar (n % 10)] := by
  cases f with
  | zero => exact absurd hf (by omega)
  | succ f =>
    have hd : n / 10 < n := Nat.div_lt_self (by omega) (by omega)
    conv_lhs => rw [natToDecCore]
    rw [if_neg (by omega)]
    congr 1
    exact natToDecCore_congr f (f + 1) (n / 10) (by omega) (by omega)

theorem natToDecCore_single (f n : Nat) (h : n < 10) (hf : 0 < f) :
    natToDecCore f n = [Nat.digitChar n] := by
  cases f with
  | zero => exact absurd hf (by omega)
  | succ f =>
    conv_lhs => rw [natToDecCore]
    rw [if_pos h]

theorem natToDec_data_one (n : Nat) (h : n < 10) :
    (natToDec n).data = [Nat.digitChar n] := by
  show natToDecCore (n + 1) n = _
  exact natToDecCore_single (n + 1) n h (by omega)

theorem natToDec_data_two (n : Nat) (h1 : 10 ≤ n) (h2 : n ≤ 99) :
    (natToDec n).data = [Nat.digitChar (n / 10), Nat.digitChar (n % 10)] := by
  show natToDecCore (n + 1) n = _
  rw [natToDecCore_split (n + 1) n h1 (by omega),
      natToDecCore_single (n + 1) (n / 10) (by omega) (by omega)]
  rfl

theorem natToDec_data_four (n : Nat) (h1 : 1000 ≤ n) (h2 : n ≤ 9999) :
    (natToDec n).data = [Nat.digitChar (n / 1000), Nat.digitChar (n / 100 % 10),
      Nat.digitChar (n / 10 % 10), Nat.digitChar (n % 10)] := by
  show natToDecCore (n + 1) n = _
  rw [natToDecCore_split (n + 1) n (by omega) (by omega),
      natToDecCore_split (n + 1) (n / 10) (by omega) (by omega),
      natToDecCore_split (n + 1) (n / 10 / 10) (by omega) (by omega),
      natToDecCore_single (n + 1) (n / 10 / 10 / 10) (by omega) (by omega)]
  have e1 : n / 10 / 10 / 10 = n / 1000 := by omega
  have e2 : n / 10 / 10 = n / 100 := by omega
  rw [e1, e2]
  simp

theorem pad2_data_two (n : Nat) (h : n ≤ 99) :
    ∃ c1 c2, (pad2 n).data = [c1, c2] ∧ c1.isDigit = true ∧
      c2.isDigit = true := by
  by_cases h10 : n < 10
  · refine ⟨'0', Nat.digitChar n, ?_, by decide, digitChar_isDigit n h10⟩
    unfold pad2
    rw [if_pos h10, String.data_append, natToDec_data_one n h10]
    rfl
  · refine ⟨Nat.digitChar (n / 10), Nat.digitChar (n % 10), ?_,
      digitChar_isDigit _ (by omega), digitChar_isDigit _ (by omega)⟩
    unfold pad2
    rw [if_neg h10]
    exact natToDec_data_two n (by omega) h

theorem matchesTimePattern_formatTime (dt : DateTime) (h : dt.valid) :
    matchesTimePattern (formatTime dt) = true := by
  obtain ⟨-, -, -, -, hh, hm, hs⟩ := h
  obtain ⟨a1, a2, ha, ha1, ha2⟩ := pad2_data_two dt.hour (by omega)
  obtain ⟨b1, b2, hb, hb1, hb2⟩ := pad2_data_two dt.minute (by omega)
  obtain ⟨c1, c2, hc, hc1, hc2⟩ := pad2_data_two dt.second (by omega)
  have hcolon : (":" : String).data = [':'] := rfl
  have hdata : (formatTime dt).data = [a1, a2, ':', b1, b2, ':', c1, c2] := by
    simp [formatTime, String.data_append, ha, hb, hc, hcolon]
  unfold matchesTimePattern
  rw [hdata]
  simp [ha1, ha2, hb1, hb2, hc1, hc2]

theorem matchesDatePattern_formatDate (dt : DateTime) (h : dt.valid)
    (h1 : 1000 ≤ dt.year) (h2 : dt.year ≤ 9999) :
    matchesDatePattern (formatDate dt) = true := by
  obtain ⟨hm1, hm2, hd1, hd2, -, -, -⟩ := h
  obtain ⟨b1, b2, hb, hb1, hb2⟩ := pad2_data_two dt.month (by omega)
  obtain ⟨c1, c2, hc, hc1, hc2⟩ := pad2_data_two dt.day (by omega)
  have hdash : ("-" : String).data = ['-'] := rfl
  have hy := natToDec_data_four dt.year h1 h2
  have hdata : (formatDate dt).data = [Nat.digitChar (dt.year / 1000),
      Nat.digitChar (dt.year / 100 % 10), Nat.digitChar (dt.year / 10 % 10),
      Nat.digitChar (dt.year % 10), '-', b1, b2, '-', c1, c2] := by
    simp [formatDate, String.data_append, hy, hb, hc, hdash]
  unfold matchesDatePattern
  rw [hdata]
  simp [hb1, hb2, hc1, hc2, digitChar_isDigit _ (by omega : dt.year / 1000 < 10),
    digitChar_isDigit _ (by omega : dt.year / 100 % 10 < 10),
    digitChar_isDigit _ (by omega : dt.year / 10 % 10 < 10),
    digitChar_isDigit _ (by omega : dt.year % 10 < 10)]

/-! ## Symbolic execution of `createLogs` and the constructor -/

theorem createLogs_run (env : Env) (w : World) (dir : String) :
    createLogs env w dir =
      ({ logFile :=
           if env.openOk (infoPath env w.clock dir) = true then
             .opened (infoPath env w.clock dir) else .failed,
         warningLogFile :=
           if env.openOk (warnPath env (w.clock + 1) dir) = true then
             .opened (warnPath env (w.clock + 1) dir) else .failed,
         errorLogFile :=
           if env.openOk (errPath env (w.clock + 2) dir) = true then
             .opened (errPath env (w.clock + 2) dir) else .failed },
       { dirs := w.dirs,
         files :=
           (let F1 := if env.openOk (infoPath env w.clock dir) = true then
               fsTouch w.files (infoPath env w.clock dir) else w.files
            let F2 := if env.openOk (warnPath env (w.clock + 1) dir) = true
              then fsTouch F1 (warnPath env (w.clock + 1) dir) else F1
            if env.openOk (errPath env (w.clock + 2) dir) = true then
              fsTouch F2 (errPath env (w.clock + 2) dir) else F2),
         stderrLines := w.stderrLines
           ++ (if env.openOk (warnPath env (w.clock + 1) dir) = true then []
               else [openFailMsg (warnPath env (w.clock + 1) dir)])
           ++ (if env.openOk (infoPath env w.clock dir) = true then []
               else [openFailMsg (warnPath env (w.clock + 1) dir)])
           ++ (if env.openOk (errPath env (w.clock + 2) dir) = true then []
               else [openFailMsg (errPath env (w.clock + 2) dir)]),
         clock := w.clock + 3 }) := by
  cases h0 : env.openOk (pathJoin dir (formatDate (env.clock w.clock) ++ ".log")) <;>
    cases h1 : env.openOk (pathJoin dir
      (formatDate (env.clock (w.clock + 1)) ++ " Warnings.log")) <;>
      cases h2 : env.openOk (pathJoin dir
        (formatDate (env.clock (w.clock + 2)) ++ " Errors.log")) <;>
        simp [createLogs, currentDateFormatted, openApp, infoPath, warnPath,
          errPath, cerrLine, StreamState.isOpen, h0, h1, h2]

theorem createDirectories_of_contains (env : Env) (w : World) (dir : String)
    (h : w.dirs.contains dir = true) :
    createDirectories env w dir = .ok w := by
  have hm : dir ∈ w.dirs := by simpa using h
  simp [createDirectories, hm]

theorem createDirectories_of_mkOk (env : Env) (w : World) (dir : String)
    (h : env.mkdirOk = true) :
    createDirectories env w dir =
      .ok (if w.dirs.contains dir = true then w
           else { w with dirs := dir :: w.dirs }) := by
  by_cases hc : dir ∈ w.dirs <;> simp [createDirectories, h, hc]

theorem LoggerCtor_of_contains (env : Env) (w : World) (cwd : List String)
    (b : Bool)
    (h : w.dirs.contains (renderPath (dirPathOf cwd b)) = true) :
    LoggerCtor env w cwd b =
      .ok (createLogs env w (renderPath (dirPathOf cwd b))) := by
  simp [LoggerCtor, createDirectories_of_contains env w _ h]

/-! ## The claims -/

/-- C1: for every message `m` and every channel (info, warning, error)
whose stream is open, the line-variant write (`writeLine` /
`writeWarningLine` / `writeErrorLine`) appends to that channel's file
exactly the current time string, one space, the message `m` verbatim and
one trailing newline — no alteration, escaping or truncation of `m` —
and prints nothing on the standard error stream. -/
theorem writeLine_appends_time_space_message_newline
    (env : Env) (w : World) (lg : Logger)
    (m1 m2 m3 p1 p2 p3 c1 c2 c3 : String)
    (h1 : lg.logFile = .opened p1) (h2 : lg.warningLogFile = .opened p2)
    (h3 : lg.errorLogFile = .opened p3)
    (f1 : fsLookup w.files p1 = some c1)
    (f2 : fsLookup w.files p2 = some c2)
    (f3 : fsLookup w.files p3 = some c3) :
    (fsLookup (lg.writeLine env w m1).files p1
        = some (c1 ++ (formatTime (env.clock w.clock) ++ " " ++ m1 ++ "\n"))
      ∧ (lg.writeLine env w m1).stderrLines = w.stderrLines)
    ∧ (fsLookup (lg.writeWarningLine env w m2).files p2
        = some (c2 ++ (formatTime (env.clock w.clock) ++ " " ++ m2 ++ "\n"))
      ∧ (lg.writeWarningLine env w m2).stderrLines = w.stderrLines)
    ∧ (fsLookup (lg.writeErrorLine env w m3).files p3
        = some (c3 ++ (formatTime (env.clock w.clock) ++ " " ++ m3 ++ "\n"))
      ∧ (lg.writeErrorLine env w m3).stderrLines = w.stderrLines) := by
  refine ⟨⟨?_, ?_⟩, ⟨?_, ?_⟩, ⟨?_, ?_⟩⟩
  · have ha := fsLookup_fsAppend_self w.files p1
      (formatTime (env.clock w.clock) ++ " " ++ (m1 ++ "\n")) c1 f1
    simp only [Logger.writeLine, Logger.write, h1, currentTimeFormatted]
    rw [ha]
    simp [String.append_assoc]
  · simp [Logger.writeLine, Logger.write, h1, currentTimeFormatted]
  · have ha := fsLookup_fsAppend_self w.files p2
      (formatTime (env.clock w.clock) ++ " " ++ (m2 ++ "\n")) c2 f2
    simp only [Logger.writeWarningLine, Logger.writeWarning, h2,
      currentTimeFormatted]
    rw [ha]
    simp [String.append_assoc]
  · simp [Logger.writeWarningLine, Logger.writeWarning, h2,
      currentTimeFormatted]
  · have ha := fsLookup_fsAppend_self w.files p3
      (formatTime (env.clock w.clock) ++ " " ++ (m3 ++ "\n")) c3 f3
    simp only [Logger.writeErrorLine, Logger.writeError, h3,
      currentTimeFormatted]
    rw [ha]
    simp [String.append_assoc]
  · simp [Logger.writeErrorLine, Logger.writeError, h3,
      currentTimeFormatted]

/-- Witness for C1 on concrete inputs: the three channels of
`lgOpenLWE` are open on the files `L`, `W`, `E` of `wPre`, and each
line-variant write appends `HH:MM:SS <message>\n` to the right file. -/
theorem writeLine_appends_time_space_message_newline_witness :
    lgOpenLWE.logFile = .opened "L"
    ∧ fsLookup wPre.files "L" = some "old"
    ∧ ((fsLookup (lgOpenLWE.writeLine envA wPre "alpha").files "L"
          = some ("old" ++ ("12:34:56" ++ " " ++ "alpha" ++ "\n"))
        ∧ (lgOpenLWE.writeLine envA wPre "alpha").stderrLines
            = wPre.stderrLines)
      ∧ (fsLookup (lgOpenLWE.writeWarningLine envA wPre "beta").files "W"
          = some ("" ++ ("12:34:56" ++ " " ++ "beta" ++ "\n"))
        ∧ (lgOpenLWE.writeWarningLine envA wPre "beta").stderrLines
            = wPre.stderrLines)
      ∧ (fsLookup (lgOpenLWE.writeErrorLine envA wPre "gamma").files "E"
          = some ("" ++ ("12:34:56" ++ " " ++ "gamma" ++ "\n"))
        ∧ (lgOpenLWE.writeErrorLine envA wPre "gamma").stderrLines
            = wPre.stderrLines)) :=
  ⟨rfl, by decide,
    writeLine_appends_time_space_message_newline envA wPre lgOpenLWE
      "alpha" "beta" "gamma" "L" "W" "E" "old" "" ""
      rfl rfl rfl (by decide) (by decide) (by decide)⟩

/-- C3: for every message and every channel whose stream is not open, a
write call mutates no file (and no directory), emits exactly one
diagnostic line to the standard error stream, and — being a total
function in this model — throws no exception and does not terminate the
process. -/
theorem write_unopened_is_diagnostic_noop
    (env : Env) (w : World) (lg : Logger) (m : String)
    (h1 : lg.logFile.isOpen = false)
    (h2 : lg.warningLogFile.isOpen = false)
    (h3 : lg.errorLogFile.isOpen = false) :
    ((lg.write env w m).files = w.files
      ∧ (lg.write env w m).dirs = w.dirs
      ∧ (lg.write env w m).stderrLines
          = w.stderrLines ++ ["Error: log file is not open."])
    ∧ ((lg.writeWarning env w m).files = w.files
      ∧ (lg.writeWarning env w m).dirs = w.dirs
      ∧ (lg.writeWarning env w m).stderrLines
          = w.stderrLines ++ ["Error: warning log file is not open."])
    ∧ ((lg.writeError env w m).files = w.files
      ∧ (lg.writeError env w m).dirs = w.dirs
      ∧ (lg.writeError env w m).stderrLines
          = w.stderrLines ++ ["Error: error log file is not open."]) := by
  refine ⟨?_, ?_, ?_⟩
  · cases hs : lg.logFile <;>
      simp_all [Logger.write, StreamState.isOpen, cerrLine]
  · cases hs : lg.warningLogFile <;>
      simp_all [Logger.writeWarning, StreamState.isOpen, cerrLine]
  · cases hs : lg.errorLogFile <;>
      simp_all [Logger.writeError, StreamState.isOpen, cerrLine]

/-- Witness for C3: on `lgDown` (failed / closed / unopened channels),
each write leaves the world's files untouched and pushes exactly one
diagnostic line. -/
theorem write_unopened_is_diagnostic_noop_witness :
    lgDown.logFile.isOpen = false
    ∧ (((lgDown.write envA wPre "x").files = wPre.files
        ∧ (lgDown.write envA wPre "x").dirs = wPre.dirs
        ∧ (lgDown.write envA wPre "x").stderrLines
            = wPre.stderrLines ++ ["Error: log file is not open."])
      ∧ ((lgDown.writeWarning envA wPre "x").files = wPre.files
        ∧ (lgDown.writeWarning envA wPre "x").dirs = wPre.dirs
        ∧ (lgDown.writeWarning envA wPre "x").stderrLines
            = wPre.stderrLines ++ ["Error: warning log file is not open."])
      ∧ ((lgDown.writeError envA wPre "x").files = wPre.files
        ∧ (lgDown.writeError envA wPre "x").dirs = wPre.dirs
        ∧ (lgDown.writeError envA wPre "x").stderrLines
            = wPre.stderrLines
              ++ ["Error: error log file is not open."])) :=
  ⟨rfl, write_unopened_is_diagnostic_noop envA wPre lgDown "x"
    rfl rfl rfl⟩

/-- C4: when the log directory does not exist and the filesystem denies
its creation, construction fails with the propagating
`filesystem_error` of `fs::create_directories`, and the world is
returned exactly as it was: no log file has been created or opened, no
diagnostic printed. -/
theorem ctor_mkdir_denied_propagates_untouched
    (env : Env) (w : World) (cwd : List String) (b : Bool)
    (hdir : w.dirs.contains (renderPath (dirPathOf cwd b)) = false)
    (hmk : env.mkdirOk = false) :
    LoggerCtor env w cwd b = .error w := by
  have hm : renderPath (dirPathOf cwd b) ∉ w.dirs := by simpa using hdir
  simp [LoggerCtor, createDirectories, hm, hmk]

/-- Witness for C4: under `envD` (creation denied) and the empty world,
construction errors out with the world unchanged. -/
theorem ctor_mkdir_denied_propagates_untouched_witness :
    emptyWorld.dirs.contains (renderPath (dirPathOf ["r", "c"] false))
        = false
    ∧ envD.mkdirOk = false
    ∧ LoggerCtor envD emptyWorld ["r", "c"] false = .error emptyWorld :=
  ⟨rfl, rfl,
    ctor_mkdir_denied_propagates_untouched envD emptyWorld ["r", "c"]
      false rfl rfl⟩

/-- C8: the constructor's boolean parameter selects the log directory —
`cwd/log` when true, `parent(cwd)/log` when false — and the default
value of the parameter selects `parent(cwd)/log`. -/
theorem ctor_directory_selection (env : Env) (w : World)
    (cwd : List String) :
    dirPathOf cwd true = cwd ++ ["log"]
    ∧ dirPathOf cwd false = parentPath cwd ++ ["log"]
    ∧ LoggerCtorDefault env w cwd = LoggerCtor env w cwd false :=
  ⟨by simp [dirPathOf], by simp [dirPathOf], rfl⟩

/-- C9, counterexample: the claim quantifies over every clock instant,
but `strftime`'s `%Y` prints the year at its natural width, so a valid
instant in year 10000 yields `"10000-01-01"`, which does not match the
fixed ten-character pattern `YYYY-MM-DD`.  (The time pattern is not the
problem; see the amended theorem.) -/
theorem currentDate_pattern_counterexample :
    (⟨10000, 1, 1, 0, 0, 0⟩ : DateTime).valid
    ∧ matchesDatePattern (formatDate ⟨10000, 1, 1, 0, 0, 0⟩) = false
    ∧ formatDate ⟨10000, 1, 1, 0, 0, 0⟩ = "10000-01-01" := by
  refine ⟨by decide, by decide, by decide⟩

/-- C9, amended: for every clock instant (valid broken-down local time)
whose year has four digits, `currentDateFormatted`'s result matches
`YYYY-MM-DD`; and for every clock instant without restriction,
`currentTimeFormatted`'s result matches `HH:MM:SS` (24-hour,
zero-padded).  Both are pure functions of the instant in this model. -/
theorem currentDate_currentTime_follow_patterns (dt : DateTime)
    (h : dt.valid) (h1 : 1000 ≤ dt.year) (h2 : dt.year ≤ 9999) :
    matchesDatePattern (formatDate dt) = true
    ∧ matchesTimePattern (formatTime dt) = true :=
  ⟨matchesDatePattern_formatDate dt h h1 h2,
    matchesTimePattern_formatTime dt h⟩

/-- Witness for the amended C9 at the instant 2024-05-06 12:34:56. -/
theorem currentDate_currentTime_follow_patterns_witness :
    (⟨2024, 5, 6, 12, 34, 56⟩ : DateTime).valid
    ∧ (matchesDatePattern (formatDate ⟨2024, 5, 6, 12, 34, 56⟩) = true
      ∧ matchesTimePattern (formatTime ⟨2024, 5, 6, 12, 34, 56⟩) = true) :=
  ⟨by decide,
    currentDate_currentTime_follow_patterns ⟨2024, 5, 6, 12, 34, 56⟩
      (by decide) (by decide) (by decide)⟩

theorem createLogs_outcomes (env : Env) (w : World) (dir : String) :
    (createLogs env w dir).1.logFile.isOpen
        = env.openOk (infoPath env w.clock dir)
    ∧ (createLogs env w dir).1.warningLogFile.isOpen
        = env.openOk (warnPath env (w.clock + 1) dir)
    ∧ (createLogs env w dir).1.errorLogFile.isOpen
        = env.openOk (errPath env (w.clock + 2) dir)
    ∧ (createLogs env w dir).2.stderrLines.length
        = w.stderrLines.length
          + ((if env.openOk (infoPath env w.clock dir) = true then 0 else 1)
            + (if env.openOk (warnPath env (w.clock + 1) dir) = true
               then 0 else 1)
            + (if env.openOk (errPath env (w.clock + 2) dir) = true
               then 0 else 1)) := by
  rw [createLogs_run]
  cases h0 : env.openOk (infoPath env w.clock dir) <;>
    cases h1 : env.openOk (warnPath env (w.clock + 1) dir) <;>
      cases h2 : env.openOk (errPath env (w.clock + 2) dir) <;>
        simp [h0, h1, h2, StreamState.isOpen]

/-- C5: when `env.mkdirOk` holds, construction never aborts; each
channel's open outcome depends only on the opening of its own file (the
three channels fail independently), and the standard error stream gains
exactly one diagnostic line per channel that failed to open. -/
theorem channel_failures_independent_nonfatal
    (env : Env) (w : World) (cwd : List String) (b : Bool)
    (hmk : env.mkdirOk = true) :
    ∃ lg w', LoggerCtor env w cwd b = .ok (lg, w')
      ∧ lg.logFile.isOpen
          = env.openOk (infoPath env w.clock (renderPath (dirPathOf cwd b)))
      ∧ lg.warningLogFile.isOpen
          = env.openOk
              (warnPath env (w.clock + 1) (renderPath (dirPathOf cwd b)))
      ∧ lg.errorLogFile.isOpen
          = env.openOk
              (errPath env (w.clock + 2) (renderPath (dirPathOf cwd b)))
      ∧ w'.stderrLines.length
          = w.stderrLines.length
            + ((if env.openOk (infoPath env w.clock
                  (renderPath (dirPathOf cwd b))) = true then 0 else 1)
              + (if env.openOk (warnPath env (w.clock + 1)
                  (renderPath (dirPathOf cwd b))) = true then 0 else 1)
              + (if env.openOk (errPath env (w.clock + 2)
                  (renderPath (dirPathOf cwd b))) = true then 0 else 1)) := by
  have hcd := createDirectories_of_mkOk env w (renderPath (dirPathOf cwd b))
    hmk
  by_cases hc : w.dirs.contains (renderPath (dirPathOf cwd b)) = true
  · rw [if_pos hc] at hcd
    obtain ⟨o1, o2, o3, o4⟩ :=
      createLogs_outcomes env w (renderPath (dirPathOf cwd b))
    exact ⟨_, _, by simp [LoggerCtor, hcd], o1, o2, o3, o4⟩
  · rw [if_neg hc] at hcd
    obtain ⟨o1, o2, o3, o4⟩ :=
      createLogs_outcomes env
        { w with dirs := renderPath (dirPathOf cwd b) :: w.dirs }
        (renderPath (dirPathOf cwd b))
    exact ⟨_, _, by simp [LoggerCtor, hcd], o1, o2, o3, o4⟩

/-- Witness for C5 under `envC`: the main log fails to open while the
warning and error channels open fine, and exactly one diagnostic line
is emitted. -/
theorem channel_failures_independent_nonfatal_witness :
    envC.mkdirOk = true
    ∧ ∃ lg w', LoggerCtor envC emptyWorld ["r"] true = .ok (lg, w')
      ∧ lg.logFile.isOpen
          = envC.openOk (infoPath envC emptyWorld.clock
              (renderPath (dirPathOf ["r"] true)))
      ∧ lg.warningLogFile.isOpen
          = envC.openOk (warnPath envC (emptyWorld.clock + 1)
              (renderPath (dirPathOf ["r"] true)))
      ∧ lg.errorLogFile.isOpen
          = envC.openOk (errPath envC (emptyWorld.clock + 2)
              (renderPath (dirPathOf ["r"] true)))
      ∧ w'.stderrLines.length
          = emptyWorld.stderrLines.length
            + ((if envC.openOk (infoPath envC emptyWorld.clock
                  (renderPath (dirPathOf ["r"] true))) = true then 0 else 1)
              + (if envC.openOk (warnPath envC (emptyWorld.clock + 1)
                  (renderPath (dirPathOf ["r"] true))) = true then 0 else 1)
              + (if envC.openOk (errPath envC (emptyWorld.clock + 2)
                  (renderPath (dirPathOf ["r"] true))) = true
                 then 0 else 1)) :=
  ⟨rfl, channel_failures_independent_nonfatal envC emptyWorld ["r"] true rfl⟩

theorem openFailMsg_inj (p q : String) (h : openFailMsg p = openFailMsg q) :
    p = q := by
  have hd := congrArg String.data h
  simp only [openFailMsg, quotePath, String.data_append,
    List.append_assoc] at hd
  exact String.ext (List.append_cancel_right
    (List.append_cancel_left (List.append_cancel_left hd)))

/-- C10: when the main (info) log file fails to open at construction
while the others open, the diagnostic line emitted to standard error
names the Warnings file path — not the info file path — because the
source reassigns its `logFilePath` variable to the Warnings path before
the info channel's open check runs.  (The hypothesis `hD` says the
first two clock readings fall on the same date, which makes the two
paths provably distinct.) -/
theorem info_open_failure_reports_warnings_path
    (env : Env) (w : World) (dir : String)
    (h0 : env.openOk (infoPath env w.clock dir) = false)
    (h1 : env.openOk (warnPath env (w.clock + 1) dir) = true)
    (h2 : env.openOk (errPath env (w.clock + 2) dir) = true)
    (hD : formatDate (env.clock w.clock)
        = formatDate (env.clock (w.clock + 1))) :
    (createLogs env w dir).2.stderrLines
      = w.stderrLines ++ [openFailMsg (warnPath env (w.clock + 1) dir)]
    ∧ openFailMsg (warnPath env (w.clock + 1) dir)
        ≠ openFailMsg (infoPath env w.clock dir) := by
  constructor
  · rw [createLogs_run]
    simp [h0, h1, h2]
  · intro h
    have he := openFailMsg_inj _ _ h
    unfold warnPath infoPath at he
    rw [← hD] at he
    exact pathJoin_suffix_ne dir (formatDate (env.clock w.clock))
      " Warnings.log" ".log" (by decide) he

/-- Witness for C10 under `envC`: the info file fails to open, and the
one diagnostic line printed carries the Warnings path. -/
theorem info_open_failure_reports_warnings_path_witness :
    envC.openOk (infoPath envC emptyWorld.clock "r/log") = false
    ∧ envC.openOk (warnPath envC (emptyWorld.clock + 1) "r/log") = true
    ∧ envC.openOk (errPath envC (emptyWorld.clock + 2) "r/log") = true
    ∧ ((createLogs envC emptyWorld "r/log").2.stderrLines
        = emptyWorld.stderrLines
          ++ [openFailMsg (warnPath envC (emptyWorld.clock + 1) "r/log")]
      ∧ openFailMsg (warnPath envC (emptyWorld.clock + 1) "r/log")
          ≠ openFailMsg (infoPath envC emptyWorld.clock "r/log")) :=
  ⟨by decide, by decide, by decide,
    info_open_failure_reports_warnings_path envC emptyWorld "r/log"
      (by decide) (by decide) (by decide) rfl⟩

/-- C2, counterexample: `createLogs` calls `currentDateFormatted()` once
per file — three times, not once (the final clock counter is 3) — so
when the clock crosses midnight during construction (`envB`), the info
file is named with 2024-12-31 while the Warnings and Errors files are
named with 2025-01-01: the date portions of the three filenames are not
identical. -/
theorem ctor_single_date_counterexample :
    (createLogs envB emptyWorld "r/log").2.clock = 3
    ∧ (createLogs envB emptyWorld "r/log").1.logFile
        = .opened "r/log/2024-12-31.log"
    ∧ (createLogs envB emptyWorld "r/log").1.warningLogFile
        = .opened "r/log/2025-01-01 Warnings.log"
    ∧ (createLogs envB emptyWorld "r/log").1.errorLogFile
        = .opened "r/log/2025-01-01 Errors.log"
    ∧ ("2024-12-31" : String) ≠ "2025-01-01" :=
  ⟨by decide, by decide, by decide, by decide, by decide⟩

/-- C2, amended: at construction the date string is computed three
times via the time provider (once per file name, the counter advances
by three); whenever the three readings format to the same date string
`D` — in particular whenever construction does not cross a date
boundary — the three opened file names are `D.log`, `D Warnings.log`,
`D Errors.log`: their date portions are identical. -/
theorem ctor_dates_identical_when_same_date
    (env : Env) (w : World) (dir : String) (D : String)
    (hD0 : formatDate (env.clock w.clock) = D)
    (hD1 : formatDate (env.clock (w.clock + 1)) = D)
    (hD2 : formatDate (env.clock (w.clock + 2)) = D)
    (h0 : env.openOk (pathJoin dir (D ++ ".log")) = true)
    (h1 : env.openOk (pathJoin dir (D ++ " Warnings.log")) = true)
    (h2 : env.openOk (pathJoin dir (D ++ " Errors.log")) = true) :
    (createLogs env w dir).1.logFile
        = .opened (pathJoin dir (D ++ ".log"))
    ∧ (createLogs env w dir).1.warningLogFile
        = .opened (pathJoin dir (D ++ " Warnings.log"))
    ∧ (createLogs env w dir).1.errorLogFile
        = .opened (pathJoin dir (D ++ " Errors.log"))
    ∧ (createLogs env w dir).2.clock = w.clock + 3 := by
  rw [createLogs_run]
  simp [infoPath, warnPath, errPath, hD0, hD1, hD2, h0, h1, h2]

/-- Witness for the amended C2 under the constant clock `envA`. -/
theorem ctor_dates_identical_when_same_date_witness :
    formatDate (envA.clock emptyWorld.clock) = "2024-05-06"
    ∧ ((createLogs envA emptyWorld "r/log").1.logFile
        = .opened (pathJoin "r/log" ("2024-05-06" ++ ".log"))
      ∧ (createLogs envA emptyWorld "r/log").1.warningLogFile
        = .opened (pathJoin "r/log" ("2024-05-06" ++ " Warnings.log"))
      ∧ (createLogs envA emptyWorld "r/log").1.errorLogFile
        = .opened (pathJoin "r/log" ("2024-05-06" ++ " Errors.log"))
      ∧ (createLogs envA emptyWorld "r/log").2.clock
        = emptyWorld.clock + 3) :=
  ⟨by decide,
    ctor_dates_identical_when_same_date envA emptyWorld "r/log"
      "2024-05-06" (by decide) (by decide) (by decide) rfl rfl rfl⟩

theorem write_of_not_open (env : Env) (w : World) (lg : Logger)
    (m : String) (h : lg.logFile.isOpen = false) :
    lg.write env w m = cerrLine w "Error: log file is not open." := by
  cases hs : lg.logFile <;> simp_all [Logger.write, StreamState.isOpen]

theorem writeWarning_of_not_open (env : Env) (w : World) (lg : Logger)
    (m : String) (h : lg.warningLogFile.isOpen = false) :
    lg.writeWarning env w m
      = cerrLine w "Error: warning log file is not open." := by
  cases hs : lg.warningLogFile <;>
    simp_all [Logger.writeWarning, StreamState.isOpen]

theorem writeError_of_not_open (env : Env) (w : World) (lg : Logger)
    (m : String) (h : lg.errorLogFile.isOpen = false) :
    lg.writeError env w m
      = cerrLine w "Error: error log file is not open." := by
  cases hs : lg.errorLogFile <;>
    simp_all [Logger.writeError, StreamState.isOpen]

theorem closeStream_not_open (s : StreamState) :
    (closeStream s).isOpen = false := by
  cases s <;> rfl

theorem closeStream_fixes_not_open (s : StreamState)
    (h : s.isOpen = false) : closeStream s = s := by
  cases s <;> simp_all [closeStream, StreamState.isOpen]

theorem destroy_idempotent (lg : Logger) :
    lg.destroy.destroy = lg.destroy := by
  obtain ⟨a, b, c⟩ := lg
  cases a <;> cases b <;> cases c <;> rfl

theorem LoggerCtor_chanInit (env : Env) (w : World) (cwd : List String)
    (b : Bool) (lg : Logger) (w' : World)
    (hctor : LoggerCtor env w cwd b = .ok (lg, w')) :
    chanInit lg.logFile ∧ chanInit lg.warningLogFile
      ∧ chanInit lg.errorLogFile := by
  simp only [LoggerCtor] at hctor
  cases hcd : createDirectories env w (renderPath (dirPathOf cwd b)) with
  | error we => rw [hcd] at hctor; exact absurd hctor (by simp)
  | ok w1 =>
    rw [hcd] at hctor
    simp only [Except.ok.injEq] at hctor
    have hlg : lg = (createLogs env w1 (renderPath (dirPathOf cwd b))).1 := by
      rw [hctor]
    rw [hlg, createLogs_run]
    refine ⟨?_, ?_, ?_⟩ <;>
      · simp only [chanInit]
        split
        · exact Or.inl ⟨_, rfl⟩
        · exact Or.inr rfl

/-- C6: after construction each channel is either Open (bound to its
file) or Failed — the `Unopened -> {Open | Failed}` step; closing never
produces an open stream and fixes streams that are not open, so neither
Failed nor Closed ever transitions back to Open; the destructor closes
exactly the open streams (it is `closeStream` on each channel) and is
idempotent; and writes on the destroyed logger are no-ops on the files
that report one diagnostic line each. -/
theorem channel_lifecycle_state_machine
    (env : Env) (w : World) (cwd : List String) (b : Bool)
    (lg : Logger) (w' : World) (s : StreamState) (m : String)
    (hctor : LoggerCtor env w cwd b = .ok (lg, w')) :
    (chanInit lg.logFile ∧ chanInit lg.warningLogFile
      ∧ chanInit lg.errorLogFile)
    ∧ (closeStream s).isOpen = false
    ∧ (s.isOpen = false → closeStream s = s)
    ∧ lg.destroy = { logFile := closeStream lg.logFile,
                     warningLogFile := closeStream lg.warningLogFile,
                     errorLogFile := closeStream lg.errorLogFile }
    ∧ lg.destroy.destroy = lg.destroy
    ∧ ((lg.destroy.write env w' m).files = w'.files
      ∧ (lg.destroy.write env w' m).stderrLines
          = w'.stderrLines ++ ["Error: log file is not open."])
    ∧ ((lg.destroy.writeWarning env w' m).files = w'.files
      ∧ (lg.destroy.writeWarning env w' m).stderrLines
          = w'.stderrLines ++ ["Error: warning log file is not open."])
    ∧ ((lg.destroy.writeError env w' m).files = w'.files
      ∧ (lg.destroy.writeError env w' m).stderrLines
          = w'.stderrLines ++ ["Error: error log file is not open."]) := by
  refine ⟨LoggerCtor_chanInit env w cwd b lg w' hctor,
    closeStream_not_open s, closeStream_fixes_not_open s, rfl,
    destroy_idempotent lg, ?_, ?_, ?_⟩
  · rw [write_of_not_open env w' lg.destroy m (closeStream_not_open _)]
    exact ⟨rfl, rfl⟩
  · rw [writeWarning_of_not_open env w' lg.destroy m
      (closeStream_not_open _)]
    exact ⟨rfl, rfl⟩
  · rw [writeError_of_not_open env w' lg.destroy m
      (closeStream_not_open _)]
    exact ⟨rfl, rfl⟩

/-- Witness for C6: the construction under `envA` yields three open
channels, to which the state-machine theorem applies. -/
theorem channel_lifecycle_state_machine_witness :
    LoggerCtor envA emptyWorld ["r"] true
      = .ok ({ logFile := .opened "r/log/2024-05-06.log",
               warningLogFile := .opened "r/log/2024-05-06 Warnings.log",
               errorLogFile := .opened "r/log/2024-05-06 Errors.log" },
             { dirs := ["r/log"],
               files := [("r/log/2024-05-06.log", ""),
                         ("r/log/2024-05-06 Warnings.log", ""),
                         ("r/log/2024-05-06 Errors.log", "")],
               stderrLines := [], clock := 3 })
    ∧ (chanInit (StreamState.opened "r/log/2024-05-06.log")
      ∧ chanInit (StreamState.opened "r/log/2024-05-06 Warnings.log")
      ∧ chanInit (StreamState.opened "r/log/2024-05-06 Errors.log")) :=
  ⟨rfl,
    (channel_lifecycle_state_machine envA emptyWorld ["r"] true
      { logFile := .opened "r/log/2024-05-06.log",
        warningLogFile := .opened "r/log/2024-05-06 Warnings.log",
        errorLogFile := .opened "r/log/2024-05-06 Errors.log" }
      { dirs := ["r/log"],
        files := [("r/log/2024-05-06.log", ""),
                  ("r/log/2024-05-06 Warnings.log", ""),
                  ("r/log/2024-05-06 Errors.log", "")],
        stderrLines := [], clock := 3 }
      .failed "x" rfl).1⟩

theorem createLogs_allOpen (env : Env) (v : World) (dir D : String)
    (hdate : ∀ i, formatDate (env.clock i) = D)
    (hopen : ∀ p, env.openOk p = true) :
    createLogs env v dir =
      ({ logFile := .opened (pathJoin dir (D ++ ".log")),
         warningLogFile := .opened (pathJoin dir (D ++ " Warnings.log")),
         errorLogFile := .opened (pathJoin dir (D ++ " Errors.log")) },
       { dirs := v.dirs,
         files := fsTouch (fsTouch (fsTouch v.files
             (pathJoin dir (D ++ ".log")))
             (pathJoin dir (D ++ " Warnings.log")))
             (pathJoin dir (D ++ " Errors.log")),
         stderrLines := v.stderrLines,
         clock := v.clock + 3 }) := by
  rw [createLogs_run]
  simp [infoPath, warnPath, errPath, hdate, hopen]

theorem fsLookup_touch3 (files : List (String × String)) (pI pW pE : String)
    (hIW : pI ≠ pW) (hIE : pI ≠ pE) :
    fsLookup (fsTouch (fsTouch (fsTouch files pI) pW) pE) pI
      = some ((fsLookup files pI).getD "") := by
  rw [fsLookup_fsTouch_ne _ _ _ hIE, fsLookup_fsTouch_ne _ _ _ hIW]
  cases h : fsLookup files pI with
  | none => rw [fsLookup_fsTouch_none _ _ h]; rfl
  | some c => rw [fsLookup_fsTouch_of_some _ _ _ _ h]; rfl

/-- C7: constructing a logger when the log directory already exists does
not error and preserves every existing file's content (append mode, no
truncation); and on the same day (stable date `D`, all opens succeed) a
second logger reuses the same three files: after logger A writes `m1`
and is destroyed and logger B is constructed and writes `m2`, the info
file holds A's line followed by B's line. -/
theorem existing_dir_preserved_and_same_day_continues
    (env : Env) (w : World) (cwd : List String) (b : Bool)
    (D m1 m2 pI : String) (lgA : Logger) (w1 w2 : World)
    (lgB : Logger) (w3 w4 : World)
    (hdate : ∀ i, formatDate (env.clock i) = D)
    (hopen : ∀ p, env.openOk p = true)
    (hdirs : w.dirs.contains (renderPath (dirPathOf cwd b)) = true)
    (hpI : pI = pathJoin (renderPath (dirPathOf cwd b)) (D ++ ".log"))
    (hnone : fsLookup w.files pI = none)
    (hA : createLogs env w (renderPath (dirPathOf cwd b)) = (lgA, w1))
    (hw2 : lgA.writeLine env w1 m1 = w2)
    (hB : createLogs env w2 (renderPath (dirPathOf cwd b)) = (lgB, w3))
    (hw4 : lgB.writeLine env w3 m2 = w4) :
    LoggerCtor env w cwd b = .ok (lgA, w1)
    ∧ w1.dirs = w.dirs
    ∧ (∀ q c, fsLookup w.files q = some c → fsLookup w1.files q = some c)
    ∧ lgA.destroy.logFile = .closed
    ∧ LoggerCtor env w2 cwd b = .ok (lgB, w3)
    ∧ fsLookup w4.files pI
        = some (formatTime (env.clock (w.clock + 3)) ++ " " ++ m1 ++ "\n"
            ++ formatTime (env.clock (w.clock + 7)) ++ " " ++ m2 ++ "\n") := by
  subst hpI
  have hIW : pathJoin (renderPath (dirPathOf cwd b)) (D ++ ".log")
      ≠ pathJoin (renderPath (dirPathOf cwd b)) (D ++ " Warnings.log") :=
    pathJoin_suffix_ne _ D ".log" " Warnings.log" (by decide)
  have hIE : pathJoin (renderPath (dirPathOf cwd b)) (D ++ ".log")
      ≠ pathJoin (renderPath (dirPathOf cwd b)) (D ++ " Errors.log") :=
    pathJoin_suffix_ne _ D ".log" " Errors.log" (by decide)
  rw [createLogs_allOpen env w _ D hdate hopen] at hA
  injection hA with hlgA hw1
  subst hlgA
  subst hw1
  subst hw2
  rw [createLogs_allOpen env _ _ D hdate hopen] at hB
  injection hB with hlgB hw3
  subst hlgB
  subst hw3
  subst hw4
  refine ⟨?_, rfl, ?_, rfl, ?_, ?_⟩
  · rw [LoggerCtor_of_contains env w cwd b hdirs,
      createLogs_allOpen env w _ D hdate hopen]
  · exact fun q c h =>
      fsLookup_fsTouch_of_some _ _ _ _
        (fsLookup_fsTouch_of_some _ _ _ _
          (fsLookup_fsTouch_of_some _ _ _ _ h))
  · rw [LoggerCtor_of_contains env _ cwd b (by
      simpa [Logger.writeLine, Logger.write, currentTimeFormatted]
        using hdirs)]
    rw [createLogs_allOpen env _ _ D hdate hopen]
  · simp only [Logger.writeLine, Logger.write, currentTimeFormatted]
    have L1 : fsLookup
        (fsTouch (fsTouch (fsTouch w.files
            (pathJoin (renderPath (dirPathOf cwd b)) (D ++ ".log")))
            (pathJoin (renderPath (dirPathOf cwd b)) (D ++ " Warnings.log")))
            (pathJoin (renderPath (dirPathOf cwd b)) (D ++ " Errors.log")))
        (pathJoin (renderPath (dirPathOf cwd b)) (D ++ ".log"))
        = some "" := by
      rw [fsLookup_touch3 _ _ _ _ hIW hIE, hnone]
      rfl
    have L2 := fsLookup_fsAppend_self _
      (pathJoin (renderPath (dirPathOf cwd b)) (D ++ ".log"))
      (formatTime (env.clock (w.clock + 3)) ++ " " ++ (m1 ++ "\n")) _ L1
    have L3 : fsLookup
        (fsTouch (fsTouch (fsTouch
            (fsAppend (fsTouch (fsTouch (fsTouch w.files
                (pathJoin (renderPath (dirPathOf cwd b)) (D ++ ".log")))
                (pathJoin (renderPath (dirPathOf cwd b))
                  (D ++ " Warnings.log")))
                (pathJoin (renderPath (dirPathOf cwd b))
                  (D ++ " Errors.log")))
              (pathJoin (renderPath (dirPathOf cwd b)) (D ++ ".log"))
              (formatTime (env.clock (w.clock + 3)) ++ " " ++ (m1 ++ "\n")))
            (pathJoin (renderPath (dirPathOf cwd b)) (D ++ ".log")))
            (pathJoin (renderPath (dirPathOf cwd b)) (D ++ " Warnings.log")))
            (pathJoin (renderPath (dirPathOf cwd b)) (D ++ " Errors.log")))
        (pathJoin (renderPath (dirPathOf cwd b)) (D ++ ".log"))
        = some ("" ++ (formatTime (env.clock (w.clock + 3)) ++ " "
            ++ (m1 ++ "\n"))) := by
      rw [fsLookup_touch3 _ _ _ _ hIW hIE, L2]
      rfl
    have L4 := fsLookup_fsAppend_self _
      (pathJoin (renderPath (dirPathOf cwd b)) (D ++ ".log"))
      (formatTime (env.clock (w.clock + 3 + 1 + 3)) ++ " " ++ (m2 ++ "\n"))
      _ L3
    rw [L4]
    have hc : w.clock + 3 + 1 + 3 = w.clock + 7 := by omega
    rw [hc]
    have he : ∀ s : String, "" ++ s = s := fun s => rfl
    simp [String.append_assoc, he]

/-- Witness for C7: under `envA`, starting from `wPre` (whose `r/log`
directory already exists and whose files `L`, `W`, `E` survive), logger
A writes `m1`, is destroyed, logger B is constructed the same day and
writes `m2`; the info file ends with both lines in order. -/
theorem existing_dir_preserved_and_same_day_continues_witness :
    LoggerCtor envA wPre ["r"] true
      = .ok ({ logFile := .opened "r/log/2024-05-06.log",
               warningLogFile := .opened "r/log/2024-05-06 Warnings.log",
               errorLogFile := .opened "r/log/2024-05-06 Errors.log" },
             { dirs := ["r/log"],
               files := [("L", "old"), ("W", ""), ("E", ""),
                         ("r/log/2024-05-06.log", ""),
                         ("r/log/2024-05-06 Warnings.log", ""),
                         ("r/log/2024-05-06 Errors.log", "")],
               stderrLines := [], clock := 3 })
    ∧ fsLookup ({ dirs := ["r/log"],
                  files := [("L", "old"), ("W", ""), ("E", ""),
                            ("r/log/2024-05-06.log",
                              "12:34:56 m1\n12:34:56 m2\n"),
                            ("r/log/2024-05-06 Warnings.log", ""),
                            ("r/log/2024-05-06 Errors.log", "")],
                  stderrLines := [], clock := 8 } : World).files
        "r/log/2024-05-06.log"
        = some (formatTime (envA.clock (wPre.clock + 3)) ++ " " ++ "m1"
            ++ "\n" ++ formatTime (envA.clock (wPre.clock + 7)) ++ " "
            ++ "m2" ++ "\n") := by
  have h := existing_dir_preserved_and_same_day_continues envA wPre ["r"]
    true "2024-05-06" "m1" "m2" "r/log/2024-05-06.log"
    { logFile := .opened "r/log/2024-05-06.log",
      warningLogFile := .opened "r/log/2024-05-06 Warnings.log",
      errorLogFile := .opened "r/log/2024-05-06 Errors.log" }
    { dirs := ["r/log"],
      files := [("L", "old"), ("W", ""), ("E", ""),
                ("r/log/2024-05-06.log", ""),
                ("r/log/2024-05-06 Warnings.log", ""),
                ("r/log/2024-05-06 Errors.log", "")],
      stderrLines := [], clock := 3 }
    { dirs := ["r/log"],
      files := [("L", "old"), ("W", ""), ("E", ""),
                ("r/log/2024-05-06.log", "12:34:56 m1\n"),
                ("r/log/2024-05-06 Warnings.log", ""),
                ("r/log/2024-05-06 Errors.log", "")],
      stderrLines := [], clock := 4 }
    { logFile := .opened "r/log/2024-05-06.log",
      warningLogFile := .opened "r/log/2024-05-06 Warnings.log",
      errorLogFile := .opened "r/log/2024-05-06 Errors.log" }
    { dirs := ["r/log"],
      files := [("L", "old"), ("W", ""), ("E", ""),
                ("r/log/2024-05-06.log", "12:34:56 m1\n"),
                ("r/log/2024-05-06 Warnings.log", ""),
                ("r/log/2024-05-06 Errors.log", "")],
      stderrLines := [], clock := 7 }
    { dirs := ["r/log"],
      files := [("L", "old"), ("W", ""), ("E", ""),
                ("r/log/2024-05-06.log", "12:34:56 m1\n12:34:56 m2\n"),
                ("r/log/2024-05-06 Warnings.log", ""),
                ("r/log/2024-05-06 Errors.log", "")],
      stderrLines := [], clock := 8 }
    (fun _ => by
      show formatDate ⟨2024, 5, 6, 12, 34, 56⟩ = "2024-05-06"
      decide)
    (fun _ => rfl) (by decide) (by decide) (by decide)
    rfl rfl rfl rfl
  exact ⟨h.1, h.2.2.2.2.2⟩
